import Mathlib

/-!
Verification of the Source node contract of zenoh-flow-python.

The Python source under consideration is `zenoh_flow/interfaces/source.py`:
the abstract `Source` class whose three lifecycle methods — `__init__`
(construction), `async def run`, and `finalize` — each consist of the single
statement `raise NotImplementedError("Please implement your own method,
Source is an interface")`.

The embedding below translates that file statement by statement.  Python
exception semantics are made explicit: a call to a plain method executes its
body at the call, while a call to a coroutine function (`async def`) returns
a coroutine object without executing any of the body; the body only runs
when the coroutine is first resumed (awaited).
-/

namespace ZenohFlow

/-- Values a Python `Dict[str, Any]` configuration may carry.  The base
`Source` never inspects a value, so the constructors only need to give the
type enough inhabitants to quantify over. -/
inductive PyValue where
  | none
  | bool (b : Bool)
  | int (n : Int)
  | str (s : String)
  | obj (tag : String)
deriving DecidableEq, Repr

/-- Association-list rendering of a Python dict. -/
abbrev Dict (K V : Type) := List (K × V)

/-- Opaque Zenoh Flow execution context handle (`zenoh_flow.types.Context`).
Its definition lives outside the file under verification and the base
`Source` never touches it, so it is a single opaque field. -/
structure Context where
  handle : String
deriving DecidableEq, Repr

/-- Opaque output-channel handle (`zenoh_flow.DataSender`): the write
endpoint for one named output port.  Defined outside the file under
verification; the base `Source` never touches it. -/
structure DataSender where
  port : String
deriving DecidableEq, Repr

/-- A Python `Source` object: its attribute dictionary (`__dict__`), the only
state an instance can hold. -/
structure SourceInstance where
  attrs : Dict String PyValue
deriving DecidableEq, Repr

/-- The exception kinds relevant to the contract: Python's built-in
`NotImplementedError` — the spec's `UnimplementedError` — which is the only
exception `source.py` raises, plus the spec's error taxonomy for
construction, production and finalization failures.  Each carries its
message. -/
inductive PyError where
  | notImplementedError (msg : String)
  | configurationError (msg : String)
  | resourceError (msg : String)
  | productionError (msg : String)
  | finalizationError (msg : String)
deriving DecidableEq, Repr

/-- The one message `source.py` ever raises with. -/
def sourceInterfaceMsg : String :=
  "Please implement your own method, Source is an interface"

/-- The error kinds §8 of the spec sanctions for a construction failure:
`ConfigurationError` and `ResourceError`. -/
def PyError.constructionSanctioned : PyError → Bool
  | .configurationError _ => true
  | .resourceError _ => true
  | _ => false

/-- Body of `Source.__init__` (source.py lines 36–59), translated statement
by statement and executed against the fresh instance's attribute dictionary.
The body is the single statement
`raise NotImplementedError("Please implement your own method, Source is an interface")`,
so it raises at once, assigning nothing: the attribute store comes back
exactly as it went in. -/
def Source.initBody (_context : Context) (_configuration : Dict String PyValue)
    (_outputs : Dict String DataSender) (attrs : Dict String PyValue) :
    Except PyError Unit × Dict String PyValue :=
  (Except.error (PyError.notImplementedError sourceInterfaceMsg), attrs)

/-- Constructing a base `Source`: Python allocates an instance with an empty
`__dict__` and runs `__init__` on it; if the body raises, the exception
propagates out of the constructor and no instance is produced. -/
def Source.init (context : Context) (configuration : Dict String PyValue)
    (outputs : Dict String DataSender) : Except PyError SourceInstance :=
  match Source.initBody context configuration outputs [] with
  | (Except.ok _, attrs) => Except.ok ⟨attrs⟩
  | (Except.error e, _) => Except.error e

/-- The coroutine object returned by a call to `Source.run` (source.py lines
61–69).  `run` is `async def`, so the freshly created coroutine is suspended
at the start of the body; nothing has executed yet. -/
inductive RunCoroutine where
  | suspendedAtStart (self : SourceInstance)
deriving DecidableEq, Repr

/-- Calling `Source.run(self)`: because `run` is a coroutine function, the
call itself executes none of the body and returns a coroutine object.  The
only parameter is `self`. -/
def Source.run (self : SourceInstance) : RunCoroutine :=
  RunCoroutine.suspendedAtStart self

/-- How one resumption of the `run` coroutine can end: the coroutine returns
(Python's `StopIteration`, carrying no data value since `run` returns
`None`), or an exception propagates out of it. -/
inductive RunOutcome where
  | completed
  | raised (e : PyError)
deriving DecidableEq, Repr

/-- What a resumption of the `run` coroutine produces: the records handed to
output channels while the body executed — each a port name and payload, in
emission order — and how the execution ended.  Data leaves `run` only
through `sent`; the outcome carries no payload. -/
structure ResumeResult where
  sent : List (String × PyValue)
  outcome : RunOutcome
deriving DecidableEq, Repr

/-- First resumption (await) of the coroutine returned by `Source.run`: the
body now executes, and it is the single statement
`raise NotImplementedError("Please implement your own method, Source is an interface")`,
so the coroutine raises at once having sent nothing. -/
def RunCoroutine.resume : RunCoroutine → ResumeResult
  | .suspendedAtStart _ =>
    ⟨[], RunOutcome.raised (PyError.notImplementedError sourceInterfaceMsg)⟩

/-- Body of `Source.finalize` (source.py lines 71–79): a plain method whose
body is the single statement
`raise NotImplementedError("Please implement your own method, Source is an interface")`;
being synchronous, it raises at the call. -/
def Source.finalize (_self : SourceInstance) : Except PyError Unit :=
  Except.error (PyError.notImplementedError sourceInterfaceMsg)

/-- The three lifecycle operations of the Source contract, in the spec's
vocabulary. -/
inductive LifecycleOp where
  | construct
  | run
  | finalize
deriving DecidableEq, Repr

/-- The Python method implementing each lifecycle operation. -/
def LifecycleOp.methodName : LifecycleOp → String
  | .construct => "__init__"
  | .run => "run"
  | .finalize => "finalize"

/-- The methods defined in the class body of `Source` (source.py lines
21–79), in order of appearance.  These are the only operations the class
declares. -/
def Source.methodNames : List String :=
  ["__init__", "run", "finalize"]

/-- The immediate, call-time result of invoking a lifecycle operation on the
base `Source`. -/
inductive CallResult where
  | raised (e : PyError)
  | instanceValue (i : SourceInstance)
  | coroutineObject (c : RunCoroutine)
  | noneValue
deriving DecidableEq, Repr

/-- Whether the call itself raised. -/
def CallResult.isRaised : CallResult → Bool
  | .raised _ => true
  | _ => false

/-- Call-time outcome of each lifecycle operation on the base `Source`,
derived from the per-method embeddings: `__init__` and `finalize` are plain
methods whose bodies execute at the call, while `run` is a coroutine
function whose call returns a coroutine object without executing the
body. -/
def Source.callOutcome (op : LifecycleOp) (context : Context)
    (configuration : Dict String PyValue) (outputs : Dict String DataSender)
    (self : SourceInstance) : CallResult :=
  match op with
  | LifecycleOp.construct =>
    match Source.init context configuration outputs with
    | Except.ok i => CallResult.instanceValue i
    | Except.error e => CallResult.raised e
  | LifecycleOp.run => CallResult.coroutineObject (Source.run self)
  | LifecycleOp.finalize =>
    match Source.finalize self with
    | Except.ok _ => CallResult.noneValue
    | Except.error e => CallResult.raised e

/-- Modelled from the spec: the lifecycle states of §4.4.  The state machine
is enforced by the runtime/scheduler, whose code is not part of this
repository's Python sources. -/
inductive LifecycleState where
  | uninitialized
  | initialized
  | running
  | finalized
  | failed
deriving DecidableEq, Repr

/-- Modelled from the spec: the events §4.4 transitions on — each lifecycle
call, with construction able to fail and `run` able to hit a production
error. -/
inductive LifecycleEvent where
  | constructOk
  | constructErr
  | runCall
  | productionErr
  | finalizeCall
deriving DecidableEq, Repr

/-- Modelled from the spec: an illegal lifecycle transition, reported as an
explicit, testable error naming the offending state and event. -/
structure IllegalTransition where
  state : LifecycleState
  event : LifecycleEvent
deriving DecidableEq, Repr

/-- Modelled from the spec: the §4.4 lifecycle step function.  Legal
transitions are exactly the five bullets of §4.4; every other (state, event)
pair is rejected with an explicit `IllegalTransition` error. -/
def lifecycleStep : LifecycleState → LifecycleEvent →
    Except IllegalTransition LifecycleState
  | .uninitialized, .constructOk => Except.ok .initialized
  | .uninitialized, .constructErr => Except.ok .failed
  | .initialized, .runCall => Except.ok .running
  | .running, .productionErr => Except.ok .failed
  | .running, .finalizeCall => Except.ok .finalized
  | .failed, .finalizeCall => Except.ok .finalized
  | s, e => Except.error ⟨s, e⟩

/-- A concrete execution context used for concrete evaluations. -/
def ctx0 : Context := ⟨"runtime-0"⟩

/-- A concrete instance with an empty attribute dictionary, as Python
allocates before `__init__` runs (obtainable via `object.__new__` or a
subclass that skips `super().__init__`). -/
def inst0 : SourceInstance := ⟨[]⟩

/-- C1 (counterexample): the claim that every lifecycle call on the base
`Source` fails immediately is false for `run`: at a concrete instance, the
call to `run` returns a coroutine object and raises nothing at call time. -/
theorem run_call_does_not_fail_immediately :
    Source.callOutcome LifecycleOp.run ctx0 [] [] inst0 =
      CallResult.coroutineObject (RunCoroutine.suspendedAtStart inst0) ∧
    (Source.callOutcome LifecycleOp.run ctx0 [] [] inst0).isRaised = false :=
  ⟨rfl, rfl⟩

/-- C1 (amended): for all arguments, calls to `construct` and `finalize` on
the base `Source` fail immediately with `NotImplementedError`; a call to
`run` instead returns a coroutine object at once, and the
`NotImplementedError` is raised at that coroutine's first resumption. -/
theorem lifecycle_call_time_outcomes (context : Context)
    (configuration : Dict String PyValue) (outputs : Dict String DataSender)
    (self : SourceInstance) :
    Source.callOutcome LifecycleOp.construct context configuration outputs self =
      CallResult.raised (PyError.notImplementedError sourceInterfaceMsg) ∧
    Source.callOutcome LifecycleOp.finalize context configuration outputs self =
      CallResult.raised (PyError.notImplementedError sourceInterfaceMsg) ∧
    Source.callOutcome LifecycleOp.run context configuration outputs self =
      CallResult.coroutineObject (Source.run self) ∧
    (Source.run self).resume.outcome =
      RunOutcome.raised (PyError.notImplementedError sourceInterfaceMsg) :=
  ⟨rfl, rfl, rfl, rfl⟩

/-- C3 (counterexample): at a concrete input, construction of the base
`Source` neither returns an instance nor fails with one of the two error
kinds §8 sanctions (`ConfigurationError`/`ResourceError`): it fails with
`NotImplementedError`, an unsanctioned kind. -/
theorem base_construction_unsanctioned_error_kind :
    Source.init ctx0 [] [] =
      Except.error (PyError.notImplementedError sourceInterfaceMsg) ∧
    PyError.constructionSanctioned
      (PyError.notImplementedError sourceInterfaceMsg) = false :=
  ⟨rfl, rfl⟩

/-- C3 (amended): on the base `Source` contract, construction never yields
an instance at all — silently broken or otherwise: for every input it fails,
and always with the unimplemented-contract error `NotImplementedError`, not
with any other kind. -/
theorem base_construction_always_fails_unimplemented (context : Context)
    (configuration : Dict String PyValue) (outputs : Dict String DataSender) :
    Source.init context configuration outputs =
      Except.error (PyError.notImplementedError sourceInterfaceMsg) ∧
    (Source.init context configuration outputs).isOk = false :=
  ⟨rfl, rfl⟩

/-- C4: the lifecycle state machine (modelled from §4.4 of the spec) has
exactly the states Uninitialized, Initialized, Running, Finalized and
Failed; its legal transitions are the five bullets of §4.4, and every
illegal transition — run before construct, a second run, anything after
Finalized, anything but finalize from Failed — is rejected with an explicit
`IllegalTransition` error naming the state and event. -/
theorem lifecycle_state_machine_explicit :
    lifecycleStep .uninitialized .constructOk = Except.ok .initialized ∧
    lifecycleStep .uninitialized .constructErr = Except.ok .failed ∧
    lifecycleStep .initialized .runCall = Except.ok .running ∧
    lifecycleStep .running .productionErr = Except.ok .failed ∧
    lifecycleStep .running .finalizeCall = Except.ok .finalized ∧
    lifecycleStep .failed .finalizeCall = Except.ok .finalized ∧
    lifecycleStep .uninitialized .runCall =
      Except.error ⟨.uninitialized, .runCall⟩ ∧
    lifecycleStep .running .runCall = Except.error ⟨.running, .runCall⟩ ∧
    lifecycleStep .initialized .finalizeCall =
      Except.error ⟨.initialized, .finalizeCall⟩ ∧
    (∀ e, lifecycleStep .finalized e = Except.error ⟨.finalized, e⟩) ∧
    (∀ e, e = LifecycleEvent.finalizeCall ∨
      lifecycleStep .failed e = Except.error ⟨.failed, e⟩) ∧
    (∀ s e, (∃ s2, lifecycleStep s e = Except.ok s2) ∨
      lifecycleStep s e = Except.error ⟨s, e⟩) := by
  refine ⟨rfl, rfl, rfl, rfl, rfl, rfl, rfl, rfl, rfl, ?_, ?_, ?_⟩
  · intro e
    cases e <;> rfl
  · intro e
    cases e
    · exact Or.inr rfl
    · exact Or.inr rfl
    · exact Or.inr rfl
    · exact Or.inr rfl
    · exact Or.inl rfl
  · intro s e
    cases s <;> cases e <;>
      first
        | exact Or.inl ⟨_, rfl⟩
        | exact Or.inr rfl

/-- C5: the construction call takes exactly an execution context, a
configuration mapping from string keys to values, and an output channel set
mapping port names to channel handles — the three parameters of
`Source.init` — and its result is a node instance or an error. -/
theorem construction_signature_instance_or_error (context : Context)
    (configuration : Dict String PyValue) (outputs : Dict String DataSender) :
    (∃ i, Source.init context configuration outputs = Except.ok i) ∨
    (∃ e, Source.init context configuration outputs = Except.error e) :=
  Or.inr ⟨PyError.notImplementedError sourceInterfaceMsg, rfl⟩

/-- C6: `run` takes nothing beyond the instance itself (`Source.run`'s only
parameter is `self`), and awaiting it ends in completion or an error — on
the base class, an error; data leaves only through the `sent` record list
(empty here), never through parameters or the return value. -/
theorem run_completion_or_error_and_sends_only (self : SourceInstance) :
    ((Source.run self).resume.outcome = RunOutcome.completed ∨
      ∃ e, (Source.run self).resume.outcome = RunOutcome.raised e) ∧
    (Source.run self).resume.sent = [] :=
  ⟨Or.inr ⟨PyError.notImplementedError sourceInterfaceMsg, rfl⟩, rfl⟩

/-- C7: the `Source` class body declares exactly the three lifecycle
operations — `__init__` (construct), `run` and `finalize` — and nothing
else: a method name belongs to the class exactly when it is the method of
one of the three lifecycle operations. -/
theorem interface_exactly_three_lifecycle_ops :
    Source.methodNames = [LifecycleOp.construct.methodName,
      LifecycleOp.run.methodName, LifecycleOp.finalize.methodName] ∧
    (∀ s, s ∈ Source.methodNames ↔ ∃ op : LifecycleOp, op.methodName = s) := by
  refine ⟨rfl, ?_⟩
  intro s
  simp only [Source.methodNames, List.mem_cons, List.not_mem_nil, or_false]
  constructor
  · rintro (rfl | rfl | rfl)
    · exact ⟨LifecycleOp.construct, rfl⟩
    · exact ⟨LifecycleOp.run, rfl⟩
    · exact ⟨LifecycleOp.finalize, rfl⟩
  · rintro ⟨op, rfl⟩
    cases op
    · exact Or.inl rfl
    · exact Or.inr (Or.inl rfl)
    · exact Or.inr (Or.inr rfl)

/-- C8: on the base `Source`, invoking `run` never fails at call time: for
every instance and arguments the call returns the coroutine object, and the
`NotImplementedError` appears only when that coroutine is first resumed
(awaited) — the failure is deferred, not immediate. -/
theorem run_failure_deferred_to_first_await (context : Context)
    (configuration : Dict String PyValue) (outputs : Dict String DataSender)
    (self : SourceInstance) :
    Source.callOutcome LifecycleOp.run context configuration outputs self =
      CallResult.coroutineObject (Source.run self) ∧
    (Source.callOutcome LifecycleOp.run context configuration outputs
      self).isRaised = false ∧
    (Source.run self).resume =
      ⟨[], RunOutcome.raised (PyError.notImplementedError sourceInterfaceMsg)⟩ :=
  ⟨rfl, rfl, rfl⟩

/-- C9: a failed base-contract construction is atomic: for every input the
body of `__init__` raises as its first statement, returning the attribute
store untouched, so the failed constructor leaves no node state and no
partial side effect behind. -/
theorem failed_construction_assigns_no_attribute (context : Context)
    (configuration : Dict String PyValue) (outputs : Dict String DataSender)
    (attrs : Dict String PyValue) :
    Source.initBody context configuration outputs attrs =
      (Except.error (PyError.notImplementedError sourceInterfaceMsg), attrs) ∧
    Source.init context configuration outputs =
      Except.error (PyError.notImplementedError sourceInterfaceMsg) :=
  ⟨rfl, rfl⟩

/-- C10: every base-contract lifecycle operation is deterministic and
input-independent: any two invocations of the same operation, whatever the
context, configuration, outputs or instance, produce the identical outcome —
the same `NotImplementedError` with the same fixed message. -/
theorem lifecycle_ops_deterministic_input_independent
    (c c2 : Context) (g g2 : Dict String PyValue)
    (o o2 : Dict String DataSender) (i i2 : SourceInstance) :
    (Source.init c g o = Source.init c2 g2 o2 ∧
      Source.init c g o =
        Except.error (PyError.notImplementedError sourceInterfaceMsg)) ∧
    ((Source.run i).resume = (Source.run i2).resume ∧
      (Source.run i).resume.outcome =
        RunOutcome.raised (PyError.notImplementedError sourceInterfaceMsg)) ∧
    (Source.finalize i = Source.finalize i2 ∧
      Source.finalize i =
        Except.error (PyError.notImplementedError sourceInterfaceMsg)) :=
  ⟨⟨rfl, rfl⟩, ⟨rfl, rfl⟩, ⟨rfl, rfl⟩⟩

end ZenohFlow
